import Mathlib

/-!
Shallow embedding of the CAPM investor-classifier engine (`src/back.py`,
function `classify_investor` and its helper tables) over exact rational
arithmetic: Python ints become `ℤ`, Python floats become `ℚ`, `None`
becomes `Option.none`.  Python truthiness of optional numbers
(`x or d`, `if x:`) is modelled explicitly: `none` and `0` are falsy.
-/

namespace Capm

/-- Python `x or d` for an optional integer: `None` and `0` are falsy. -/
def pyOrInt (o : Option ℤ) (d : ℤ) : ℤ :=
  match o with
  | none => d
  | some v => if v = 0 then d else v

/-- Python `x or d` for an optional float: `None` and `0.0` are falsy. -/
def pyOrRat (o : Option ℚ) (d : ℚ) : ℚ :=
  match o with
  | none => d
  | some v => if v = 0 then d else v

/-- The `Literal["sell", "wait", "buy_more"]` field. -/
inductive DrawdownReaction where
  | sell
  | wait
  | buy_more
  deriving DecidableEq

/-- The `Literal["conservative", "moderate", "aggressive"]` field. -/
inductive RiskToleranceLabel where
  | conservative
  | moderate
  | aggressive
  deriving DecidableEq

/-- `class Insurance(BaseModel)`: two `Optional[bool] = False` flags. -/
structure Insurance where
  has_health : Option Bool := some false
  has_life : Option Bool := some false
  deriving DecidableEq

/-- `class InvestorInput(BaseModel)`: every field optional, with the
pydantic defaults of `back.py` (an absent field takes the default; an
explicit JSON `null` is `none`). -/
structure InvestorInput where
  age : Option ℤ := some 30
  monthly_income : Option ℤ := some 0
  monthly_emi : Option ℤ := some 0
  emergency_fund_months : Option ℚ := none
  emergency_fund_amount : Option ℤ := none
  monthly_expenses : Option ℤ := none
  insurance : Option Insurance := none
  insurance_amount : Option ℤ := none
  dependants : Option ℤ := none
  risk_attitude : Option ℤ := none
  investment_knowledge : Option ℤ := none
  drawdown_reaction : Option DrawdownReaction := none
  risk_tolerance : Option RiskToleranceLabel := none
  time_horizon : Option ℤ := none
  return_expectation : Option ℚ := none
  deriving DecidableEq

/-- One entry of the `factors` list of the result dictionary. -/
structure Factor where
  name : String
  subscore : ℚ
  weight : Option ℚ
  weighted : Option ℚ
  deriving DecidableEq

/-- The dictionary returned by `classify_investor`. -/
structure ClassifyResult where
  score : ℚ
  profile : String
  recommendation : String
  factors : List Factor
  deriving DecidableEq

/-- The `WEIGHTS` dict of `back.py`, as an association list. -/
def WEIGHTS : List (String × ℚ) :=
  [("age", 0.25),
   ("financial_stability", 0.30),
   ("risk_tolerance", 0.20),
   ("time_horizon", 0.15),
   ("return_expectation", 0.10)]

/-- `WEIGHTS[k]` (every lookup in the source uses one of the five keys). -/
def wlookup (k : String) : ℚ := (WEIGHTS.lookup k).getD 0

/-- Python `round(x, 2)`: round to 2 decimal places, ties to even. -/
def round2 (x : ℚ) : ℚ :=
  let y := x * 100
  let f : ℤ := Int.floor y
  let r := y - f
  let n : ℤ := if r < 1/2 then f else if 1/2 < r then f + 1
    else if f % 2 = 0 then f else f + 1
  (n : ℚ) / 100

/-- `get_age_score` of `back.py`. -/
def get_age_score (age : ℤ) : ℚ :=
  if age ≤ 25 then 90.0 else
  if age ≤ 35 then 75.0 else
  if age ≤ 45 then 60.0 else
  if age ≤ 55 then 40.0 else
  if age ≤ 65 then 20.0 else 10.0

/-- `get_income_score_from_threshold` of `back.py`. -/
def get_income_score_from_threshold (income : ℤ) : ℚ :=
  if income < 20000 then 30.0 else
  if income < 50000 then 40.0 else
  if income < 100000 then 50.0 else
  if income < 500000 then 60.0 else
  if income < 1000000 then 70.0 else
  if income < 1500000 then 80.0 else
  if income < 2400000 then 85.0 else
  if income < 5000000 then 90.0 else
  if income < 7500000 then 95.0 else
  if income < 10000000 then 97.0 else 100.0

/-- The emergency-fund threshold table of `back.py` (its argument is the
emergency-fund coverage quotient). -/
def get_emergency_score (r : ℚ) : ℚ :=
  if r > 1.4 then 90.0 else
  if r > 1 then 70.0 else
  if r > 0.75 then 60.0 else
  if r > 0.5 then 50.0 else 30.0

/-- The EMI-to-income threshold table of `back.py` (its argument is the
EMI-to-income percentage). -/
def get_debt_score (emiPct : ℚ) : ℚ :=
  if emiPct < 5 then 90.0 else
  if emiPct < 15 then 75.0 else
  if emiPct < 25 then 60.0 else
  if emiPct < 50 then 45.0 else 30.0

/-- `get_risk_tolerance_score` of `back.py` (the `mapping.get` default of
60.0 is unreachable for the closed `Literal` type). -/
def get_risk_tolerance_score (rt : RiskToleranceLabel) : ℚ :=
  match rt with
  | .conservative => 30.0
  | .moderate => 60.0
  | .aggressive => 90.0

/-- `get_time_horizon_score` of `back.py`. -/
def get_time_horizon_score (t : ℤ) : ℚ :=
  if t ≤ 3 then 35.0 else
  if t ≤ 7 then 65.0 else 90.0

/-- `get_return_expectation_score` of `back.py`. -/
def get_return_expectation_score (r : ℚ) : ℚ :=
  if r < 8 then 35.0 else
  if r < 12 then 60.0 else
  if r < 15 then 75.0 else 90.0

/-- `get_insurance_score` of `back.py`. -/
def get_insurance_score (insurance_amount : Option ℤ) : Option ℚ :=
  match insurance_amount with
  | none => none
  | some a =>
    if a = 0 then some 30.0 else
    if a < 500000 then some 40.0 else
    if a < 2500000 then some 60.0 else
    if a < 10000000 then some 75.0 else
    if a < 50000000 then some 90.0 else some 100.0

/-- `get_dependants_score` of `back.py`. -/
def get_dependants_score (dependants : Option ℤ) : Option ℚ :=
  match dependants with
  | none => none
  | some d =>
    if d = 0 then some 90.0 else
    if d ≤ 2 then some 75.0 else
    if d ≤ 5 then some 60.0 else
    if d ≤ 8 then some 45.0 else some 30.0

/-- The local `likert` dict of `classify_investor`, with the `.get`
default of 60.0. -/
def likert (v : ℤ) : ℚ :=
  if v = 1 then 30.0 else
  if v = 2 then 45.0 else
  if v = 3 then 60.0 else
  if v = 4 then 75.0 else
  if v = 5 then 90.0 else 60.0

/-- The local `dd_map` dict of `classify_investor`. -/
def dd_map (d : DrawdownReaction) : ℚ :=
  match d with
  | .sell => 30.0
  | .wait => 60.0
  | .buy_more => 90.0

/-- `age_sub = get_age_score(data.age or 30)` (back.py line 120). -/
def age_sub_of (p : InvestorInput) : ℚ := get_age_score (pyOrInt p.age 30)

/-- `monthly_income = data.monthly_income or 1` (back.py line 125). -/
def monthly_income_of (p : InvestorInput) : ℤ := pyOrInt p.monthly_income 1

/-- `monthly_emi = data.monthly_emi or 0` (back.py line 126). -/
def monthly_emi_of (p : InvestorInput) : ℤ := pyOrInt p.monthly_emi 0

/-- `monthly_expenses = data.monthly_expenses or 0` (back.py line 127). -/
def monthly_expenses_of (p : InvestorInput) : ℤ := pyOrInt p.monthly_expenses 0

/-- `emi_ratio = (monthly_emi / monthly_income * 100) if monthly_income
else 100.0` (back.py line 128). -/
def emi_pct_of (p : InvestorInput) : ℚ :=
  if monthly_income_of p ≠ 0
  then (monthly_emi_of p : ℚ) / (monthly_income_of p : ℚ) * 100
  else 100.0

/-- `debt_score` (back.py line 129). -/
def debt_score_of (p : InvestorInput) : ℚ := get_debt_score (emi_pct_of p)

/-- `income_score` (back.py line 131). -/
def income_score_of (p : InvestorInput) : ℚ :=
  get_income_score_from_threshold (monthly_income_of p)

/-- The emergency-fund coverage quotient (back.py lines 132-136). -/
def emergency_ratio_of (p : InvestorInput) : ℚ :=
  match p.emergency_fund_amount with
  | some a =>
    if monthly_expenses_of p > 0 then (a : ℚ) / (6 * (monthly_expenses_of p : ℚ))
    else match p.emergency_fund_months with
         | some m => m / 6
         | none => 0.0
  | none =>
    match p.emergency_fund_months with
    | some m => m / 6
    | none => 0.0

/-- `emergency_score` (back.py line 137). -/
def emergency_score_of (p : InvestorInput) : ℚ :=
  get_emergency_score (emergency_ratio_of p)

/-- `financial_sub = (income_score + emergency_score + debt_score) / 3`
(back.py line 139). -/
def financial_sub_of (p : InvestorInput) : ℚ :=
  (income_score_of p + emergency_score_of p + debt_score_of p) / 3

/-- One conditional `risk_subs.append(likert.get(...))` item (back.py
lines 150-151): contributes only when the field is provided and truthy. -/
def likert_item (o : Option ℤ) : List ℚ :=
  match o with
  | some v => if v ≠ 0 then [likert v] else []
  | none => []

/-- The conditional `risk_subs.append(dd_map.get(...))` item (back.py
line 152). -/
def dd_item (o : Option DrawdownReaction) : List ℚ :=
  match o with
  | some d => [dd_map d]
  | none => []

/-- The `risk_subs` list (back.py lines 146-152): the mapped scores of the
components that are provided and truthy, in source order. -/
def risk_subs_of (p : InvestorInput) : List ℚ :=
  likert_item p.risk_attitude ++ likert_item p.investment_knowledge ++
    dd_item p.drawdown_reaction

/-- `risk_tolerance_sub` (back.py lines 147-153). -/
def risk_tolerance_sub_of (p : InvestorInput) : ℚ :=
  match p.risk_tolerance with
  | some rt => get_risk_tolerance_score rt
  | none =>
    if risk_subs_of p ≠ []
    then (risk_subs_of p).sum / ((risk_subs_of p).length : ℚ)
    else 60.0

/-- `time_sub = get_time_horizon_score(data.time_horizon or 5)`
(back.py line 158). -/
def time_sub_of (p : InvestorInput) : ℚ :=
  get_time_horizon_score (pyOrInt p.time_horizon 5)

/-- `return_sub = get_return_expectation_score(data.return_expectation or
10.0)` (back.py line 163). -/
def return_sub_of (p : InvestorInput) : ℚ :=
  get_return_expectation_score (pyOrRat p.return_expectation 10.0)

/-- The running `score` accumulated over the five weighted factors
(back.py lines 117-165), before clamping and rounding. -/
def raw_score_of (p : InvestorInput) : ℚ :=
  age_sub_of p * wlookup "age" +
  financial_sub_of p * wlookup "financial_stability" +
  risk_tolerance_sub_of p * wlookup "risk_tolerance" +
  time_sub_of p * wlookup "time_horizon" +
  return_sub_of p * wlookup "return_expectation"

/-- `score = round(min(100, max(0, score)), 2)` (back.py line 168). -/
def final_score_of (p : InvestorInput) : ℚ :=
  round2 (min 100 (max 0 (raw_score_of p)))

/-- The profile if-chain (back.py lines 169-174). -/
def profile_of_score (score : ℚ) : String :=
  if score ≤ 25 then "Ultra-Conservative" else
  if score ≤ 40 then "Conservative" else
  if score ≤ 60 then "Moderate" else
  if score ≤ 75 then "Moderate-Aggressive" else
  if score ≤ 90 then "Aggressive" else "Ultra-Aggressive"

/-- The recommendation conditional (back.py line 176). -/
def recommendation_of_score (score : ℚ) : String :=
  if score ≥ 70 then "invest in equity > debt > gold" else
  if score ≥ 40 then "invest in debt > equity > gold" else
  "invest in debt > gold > equity"

/-- `insurance_sub` after the flag fallback (back.py lines 179-183):
`get_insurance_score(data.insurance_amount)`, and when that is `None` and
an insurance record is present, 80/50/30 from the two flags. -/
def insurance_sub_of (p : InvestorInput) : Option ℚ :=
  match get_insurance_score p.insurance_amount with
  | some v => some v
  | none =>
    match p.insurance with
    | some ins =>
      if ins.has_health.getD false && ins.has_life.getD false then some 80.0
      else if ins.has_health.getD false || ins.has_life.getD false then some 50.0
      else some 30.0
    | none => none

/-- The `emergency_ratio` cascade as the specification words it:
`emergency_fund_amount / (6 × monthly_expenses)` when the amount is
present and the expenses are present and positive; otherwise
`emergency_fund_months / 6` when the months are present; otherwise 0. -/
def emergency_ratio_spec (p : InvestorInput) : ℚ :=
  match p.emergency_fund_amount, p.monthly_expenses with
  | some a, some e =>
    if 0 < e then (a : ℚ) / (6 * (e : ℚ))
    else match p.emergency_fund_months with
         | some m => m / 6
         | none => 0
  | _, _ =>
    match p.emergency_fund_months with
    | some m => m / 6
    | none => 0

/-- The five always-present factor entries (back.py lines 121, 140, 154,
159, 164), in source order. -/
def base_factors_of (data : InvestorInput) : List Factor :=
  [⟨"age", age_sub_of data, some (wlookup "age"),
    some (round2 (age_sub_of data * wlookup "age"))⟩,
   ⟨"financial_stability", round2 (financial_sub_of data),
    some (wlookup "financial_stability"),
    some (round2 (financial_sub_of data * wlookup "financial_stability"))⟩,
   ⟨"risk_tolerance", round2 (risk_tolerance_sub_of data),
    some (wlookup "risk_tolerance"),
    some (round2 (risk_tolerance_sub_of data * wlookup "risk_tolerance"))⟩,
   ⟨"time_horizon", time_sub_of data, some (wlookup "time_horizon"),
    some (round2 (time_sub_of data * wlookup "time_horizon"))⟩,
   ⟨"return_expectation", return_sub_of data,
    some (wlookup "return_expectation"),
    some (round2 (return_sub_of data * wlookup "return_expectation"))⟩]

/-- `if sub: factors.append({..., "weight": None, "weighted": None})`
(back.py lines 184-185 and 188): append an advisory factor when its
optional sub-score is present and truthy. -/
def append_optional_factor (l : List Factor) (nm : String) (o : Option ℚ) :
    List Factor :=
  match o with
  | some v => if v ≠ 0 then l ++ [⟨nm, v, none, none⟩] else l
  | none => l

/-- The full factor list (back.py lines 116-188). -/
def factors_of (data : InvestorInput) : List Factor :=
  append_optional_factor
    (append_optional_factor (base_factors_of data) "insurance"
      (insurance_sub_of data))
    "dependants" (get_dependants_score data.dependants)

/-- `classify_investor` of `back.py` (lines 115-190). -/
def classify_investor (data : InvestorInput) : ClassifyResult :=
  let score := final_score_of data
  { score := score,
    profile := profile_of_score score,
    recommendation := recommendation_of_score score,
    factors := factors_of data }

/-- A record with every field at its pydantic default. -/
def default_input : InvestorInput := {}

/-- The input of the end-to-end example in the specification. -/
def inC1 : InvestorInput :=
  { age := some 28, monthly_income := some 120000, monthly_emi := some 15000,
    emergency_fund_months := some 4.0, dependants := some 1,
    risk_attitude := some 3, investment_knowledge := some 3,
    drawdown_reaction := some .wait }

/-- Zero income together with a positive EMI. -/
def inC3 : InvestorInput := { default_input with monthly_emi := some 7 }

/-- A default record carrying an insurance amount. -/
def inC4 : InvestorInput := { default_input with insurance_amount := some 100000 }

/-- Two of the three risk components supplied, no explicit label. -/
def inC7 : InvestorInput :=
  { default_input with risk_attitude := some 2, drawdown_reaction := some .sell }

/-- A younger variant of the default record. -/
def inC9 : InvestorInput := { default_input with age := some 20 }

/-- A default record with an insurance record holding exactly one flag. -/
def inC10 : InvestorInput :=
  { default_input with insurance := some ⟨some true, some false⟩ }

/-- A floor evaluation helper. -/
theorem floor_eq_of (x : ℚ) (f : ℤ) (h1 : (f : ℚ) ≤ x) (h2 : x < f + 1) :
    ⌊x⌋ = f := by
  rw [Int.floor_eq_iff]
  exact ⟨h1, by exact_mod_cast h2⟩

/-- Rounding a value that is already an exact multiple of 0.01 is the
identity. -/
theorem round2_eq_self (x : ℚ) (k : ℤ) (h : x * 100 = k) : round2 x = x := by
  simp only [round2]
  rw [h, Int.floor_intCast]
  rw [if_pos (by norm_num : ((k : ℚ) - k) < 1/2)]
  rw [div_eq_iff (by norm_num : (100 : ℚ) ≠ 0)]
  linarith [h]

/-- Rounding a value whose fractional part (at 2 decimals) exceeds one
half rounds up. -/
theorem round2_half_up (x : ℚ) (f : ℤ) (h1 : (f : ℚ) + 1/2 < x * 100)
    (h2 : x * 100 < f + 1) : round2 x = ((f : ℚ) + 1) / 100 := by
  have hf : ⌊x * 100⌋ = f := floor_eq_of _ _ (by linarith) h2
  simp only [round2]
  rw [hf, if_neg (by linarith), if_pos (by linarith)]
  push_cast
  ring

/-- The five weight values. -/
theorem wlookup_age : wlookup "age" = 1/4 := by with_unfolding_all decide

/-- The financial-stability weight. -/
theorem wlookup_fin : wlookup "financial_stability" = 3/10 := by
  with_unfolding_all decide

/-- The risk-tolerance weight. -/
theorem wlookup_risk : wlookup "risk_tolerance" = 1/5 := by
  with_unfolding_all decide

/-- The time-horizon weight. -/
theorem wlookup_time : wlookup "time_horizon" = 3/20 := by
  with_unfolding_all decide

/-- The return-expectation weight. -/
theorem wlookup_ret : wlookup "return_expectation" = 1/10 := by
  with_unfolding_all decide

/-- Claim C1, counterexample: on the specification's end-to-end example
input, `classify_investor` does not return score 64.0 with profile
"Moderate" and recommendation "debt > equity > gold"; nor are the
emergency and risk-tolerance sub-scores 60 and 50. -/
theorem C1_spec_example_refuted :
    ¬ ((classify_investor inC1).score = 64 ∧
       (classify_investor inC1).profile = "Moderate" ∧
       (classify_investor inC1).recommendation = "debt > equity > gold" ∧
       emergency_score_of inC1 = 60 ∧
       risk_tolerance_sub_of inC1 = 50) := by
  with_unfolding_all decide

set_option maxRecDepth 2000 in
/-- Claim C1, amended: on the example input the engine returns composite
score 65.0, profile "Moderate-Aggressive" and recommendation
"invest in debt > equity > gold", with sub-scores age 75, debt 75,
income 60, emergency 50 (the ratio 4/6 falls in the >0.5 bracket),
financial_stability 185/3 (reported rounded as 61.67), risk_tolerance 60
(likert maps 3 to 60, so the mean of \x7b60,60,60\x7d is 60),
time_horizon 65 and return_expectation 60. -/
theorem C1_example_classification :
    (classify_investor inC1).score = 65 ∧
    (classify_investor inC1).profile = "Moderate-Aggressive" ∧
    (classify_investor inC1).recommendation = "invest in debt > equity > gold" ∧
    age_sub_of inC1 = 75 ∧
    debt_score_of inC1 = 75 ∧
    income_score_of inC1 = 60 ∧
    emergency_ratio_of inC1 = 2/3 ∧
    emergency_score_of inC1 = 50 ∧
    financial_sub_of inC1 = 185/3 ∧
    round2 (financial_sub_of inC1) = 6167/100 ∧
    risk_tolerance_sub_of inC1 = 60 ∧
    time_sub_of inC1 = 65 ∧
    return_sub_of inC1 = 60 := by
  have hage : age_sub_of inC1 = 75 := by
    norm_num [age_sub_of, get_age_score, pyOrInt, inC1]
  have hdebt : debt_score_of inC1 = 75 := by
    norm_num [debt_score_of, get_debt_score, emi_pct_of, monthly_income_of,
      monthly_emi_of, pyOrInt, inC1]
  have hincome : income_score_of inC1 = 60 := by
    norm_num [income_score_of, get_income_score_from_threshold,
      monthly_income_of, pyOrInt, inC1]
  have hratio : emergency_ratio_of inC1 = 2/3 := by
    norm_num [emergency_ratio_of, inC1]
  have hem : emergency_score_of inC1 = 50 := by
    rw [emergency_score_of, hratio]
    norm_num [get_emergency_score]
  have hfin : financial_sub_of inC1 = 185/3 := by
    rw [financial_sub_of, hincome, hem, hdebt]
    norm_num
  have hrisk : risk_tolerance_sub_of inC1 = 60 := by
    norm_num [risk_tolerance_sub_of, risk_subs_of, likert_item, dd_item,
      likert, dd_map, inC1]
  have htime : time_sub_of inC1 = 65 := by
    norm_num [time_sub_of, get_time_horizon_score, pyOrInt, inC1]
  have hret : return_sub_of inC1 = 60 := by
    norm_num [return_sub_of, get_return_expectation_score, pyOrRat, inC1]
  have hraw : raw_score_of inC1 = 65 := by
    rw [raw_score_of, hage, hfin, hrisk, htime, hret, wlookup_age,
      wlookup_fin, wlookup_risk, wlookup_time, wlookup_ret]
    norm_num
  have hscore : (classify_investor inC1).score = 65 := by
    show final_score_of inC1 = 65
    rw [final_score_of, hraw,
      (by norm_num : min (100:ℚ) (max 0 (65:ℚ)) = 65),
      round2_eq_self 65 6500 (by norm_num)]
  have hprofile : (classify_investor inC1).profile = "Moderate-Aggressive" := by
    show profile_of_score (final_score_of inC1) = _
    rw [show final_score_of inC1 = 65 from hscore]
    norm_num [profile_of_score]
  have hrec : (classify_investor inC1).recommendation
      = "invest in debt > equity > gold" := by
    show recommendation_of_score (final_score_of inC1) = _
    rw [show final_score_of inC1 = 65 from hscore]
    norm_num [recommendation_of_score]
  have h67 : round2 (financial_sub_of inC1) = 6167/100 := by
    rw [hfin, round2_half_up (185/3) 6166 (by norm_num) (by norm_num)]
    norm_num
  exact ⟨hscore, hprofile, hrec, hage, hdebt, hincome, hratio, hem, hfin,
    h67, hrisk, htime, hret⟩

/-- Claim C2, counterexample: the default record scores 61.5, in the
middle bracket, yet its recommendation is not the bare string
"debt > equity > gold" the claim demands (the code prefixes
"invest in "). -/
theorem C2_bare_strings_refuted :
    (40 ≤ (classify_investor default_input).score ∧
     (classify_investor default_input).score < 70) ∧
    (classify_investor default_input).recommendation ≠ "debt > equity > gold" := by
  with_unfolding_all decide

/-- Claim C2, amended: for every profile the recommendation is exactly
"invest in equity > debt > gold" when the returned (clamped, rounded)
score is at least 70, exactly "invest in debt > equity > gold" when it is
in [40, 70), and exactly "invest in debt > gold > equity" when it is
below 40. -/
theorem C2_recommendation_brackets (p : InvestorInput) :
    (70 ≤ (classify_investor p).score →
      (classify_investor p).recommendation = "invest in equity > debt > gold") ∧
    (40 ≤ (classify_investor p).score → (classify_investor p).score < 70 →
      (classify_investor p).recommendation = "invest in debt > equity > gold") ∧
    ((classify_investor p).score < 40 →
      (classify_investor p).recommendation = "invest in debt > gold > equity") := by
  have hrec : (classify_investor p).recommendation
      = recommendation_of_score (classify_investor p).score := rfl
  rw [hrec]
  unfold recommendation_of_score
  refine ⟨fun h => ?_, fun h1 h2 => ?_, fun h => ?_⟩
  · rw [if_pos h]
  · rw [if_neg (by simpa using not_le.mpr h2), if_pos h1]
  · rw [if_neg (by simpa using not_le.mpr (lt_trans h (by norm_num))),
      if_neg (by simpa using not_le.mpr h)]

/-- Witness for C2_recommendation_brackets at the default record. -/
theorem C2_recommendation_brackets_witness :
    (classify_investor default_input).recommendation
      = "invest in debt > equity > gold" :=
  (C2_recommendation_brackets default_input).2.1 (by with_unfolding_all decide) (by with_unfolding_all decide)

/-- Claim C3, counterexample: on the default record monthly_income is 0
and monthly_emi is 0, yet the EMI percentage is 0 (not 100) and the debt
component scores 90 (not 30). -/
theorem C3_zero_income_refuted :
    emi_pct_of default_input = 0 ∧ emi_pct_of default_input ≠ 100 ∧
    debt_score_of default_input = 90 ∧ debt_score_of default_input ≠ 30 := by
  with_unfolding_all decide

/-- Claim C3, amended: when monthly_income is 0 or absent it is replaced
by 1, so the EMI-to-income percentage is monthly_emi × 100 and the debt
component scores 30 whenever monthly_emi is positive but 90 when
monthly_emi is 0 or negative. -/
theorem C3_zero_income_debt (p : InvestorInput)
    (h : p.monthly_income = some 0 ∨ p.monthly_income = none) :
    monthly_income_of p = 1 ∧
    emi_pct_of p = (monthly_emi_of p : ℚ) * 100 ∧
    debt_score_of p = (if monthly_emi_of p ≤ 0 then 90 else 30) := by
  have hinc : monthly_income_of p = 1 := by
    rcases h with h | h <;> simp [monthly_income_of, pyOrInt, h]
  refine ⟨hinc, ?_, ?_⟩
  · simp [emi_pct_of, hinc]
  · have hpct : emi_pct_of p = (monthly_emi_of p : ℚ) * 100 := by
      simp [emi_pct_of, hinc]
    unfold debt_score_of get_debt_score
    rw [hpct]
    rcases le_or_lt (monthly_emi_of p) 0 with he | he
    · have : (monthly_emi_of p : ℚ) * 100 < 5 := by
        have : (monthly_emi_of p : ℚ) ≤ 0 := by exact_mod_cast he
        nlinarith
      rw [if_pos this, if_pos he]
      norm_num
    · have h1 : (1 : ℚ) ≤ (monthly_emi_of p : ℚ) := by exact_mod_cast he
      have h100 : (100 : ℚ) ≤ (monthly_emi_of p : ℚ) * 100 := by nlinarith
      rw [if_neg (by linarith), if_neg (by linarith), if_neg (by linarith),
        if_neg (by linarith), if_neg (by simpa using not_le.mpr he)]
      norm_num

/-- Witness for C3_zero_income_debt: zero income with EMI 7. -/
theorem C3_zero_income_debt_witness :
    monthly_income_of inC3 = 1 ∧
    emi_pct_of inC3 = (monthly_emi_of inC3 : ℚ) * 100 ∧
    debt_score_of inC3 = (if monthly_emi_of inC3 ≤ 0 then 90 else 30) :=
  C3_zero_income_debt inC3 (Or.inl rfl)

/-- Every age score is an integer between 10 and 90. -/
theorem get_age_score_cases (a : ℤ) :
    ∃ n : ℤ, get_age_score a = n ∧ 10 ≤ n ∧ n ≤ 90 := by
  unfold get_age_score
  split_ifs
  exacts [⟨90, by norm_num⟩, ⟨75, by norm_num⟩, ⟨60, by norm_num⟩,
    ⟨40, by norm_num⟩, ⟨20, by norm_num⟩, ⟨10, by norm_num⟩]

set_option maxHeartbeats 1000000 in
/-- Every income score is an integer between 30 and 100. -/
theorem get_income_score_cases (x : ℤ) :
    ∃ n : ℤ, get_income_score_from_threshold x = n ∧ 30 ≤ n ∧ n ≤ 100 := by
  unfold get_income_score_from_threshold
  split_ifs
  exacts [⟨30, by norm_num⟩, ⟨40, by norm_num⟩, ⟨50, by norm_num⟩,
    ⟨60, by norm_num⟩, ⟨70, by norm_num⟩, ⟨80, by norm_num⟩,
    ⟨85, by norm_num⟩, ⟨90, by norm_num⟩, ⟨95, by norm_num⟩,
    ⟨97, by norm_num⟩, ⟨100, by norm_num⟩]

/-- Every emergency score is an integer between 30 and 90. -/
theorem get_emergency_score_cases (r : ℚ) :
    ∃ n : ℤ, get_emergency_score r = n ∧ 30 ≤ n ∧ n ≤ 90 := by
  unfold get_emergency_score
  split_ifs
  exacts [⟨90, by norm_num⟩, ⟨70, by norm_num⟩, ⟨60, by norm_num⟩,
    ⟨50, by norm_num⟩, ⟨30, by norm_num⟩]

/-- Every debt score is an integer between 30 and 90. -/
theorem get_debt_score_cases (r : ℚ) :
    ∃ n : ℤ, get_debt_score r = n ∧ 30 ≤ n ∧ n ≤ 90 := by
  unfold get_debt_score
  split_ifs
  exacts [⟨90, by norm_num⟩, ⟨75, by norm_num⟩, ⟨60, by norm_num⟩,
    ⟨45, by norm_num⟩, ⟨30, by norm_num⟩]

/-- Every time-horizon score is an integer between 35 and 90. -/
theorem get_time_horizon_score_cases (t : ℤ) :
    ∃ n : ℤ, get_time_horizon_score t = n ∧ 35 ≤ n ∧ n ≤ 90 := by
  unfold get_time_horizon_score
  split_ifs
  exacts [⟨35, by norm_num⟩, ⟨65, by norm_num⟩, ⟨90, by norm_num⟩]

/-- Every return-expectation score is an integer between 35 and 90. -/
theorem get_return_expectation_score_cases (r : ℚ) :
    ∃ n : ℤ, get_return_expectation_score r = n ∧ 35 ≤ n ∧ n ≤ 90 := by
  unfold get_return_expectation_score
  split_ifs
  exacts [⟨35, by norm_num⟩, ⟨60, by norm_num⟩, ⟨75, by norm_num⟩,
    ⟨90, by norm_num⟩]

/-- Every likert value is 15 times an integer between 2 and 6. -/
theorem likert_cases (v : ℤ) :
    ∃ m : ℤ, likert v = 15 * m ∧ 2 ≤ m ∧ m ≤ 6 := by
  unfold likert
  split_ifs
  exacts [⟨2, by norm_num⟩, ⟨3, by norm_num⟩, ⟨4, by norm_num⟩,
    ⟨5, by norm_num⟩, ⟨6, by norm_num⟩, ⟨4, by norm_num⟩]

/-- Every drawdown mapping value is 15 times an integer between 2 and 6. -/
theorem dd_map_cases (d : DrawdownReaction) :
    ∃ m : ℤ, dd_map d = 15 * m ∧ 2 ≤ m ∧ m ≤ 6 := by
  cases d
  exacts [⟨2, by norm_num [dd_map]⟩, ⟨4, by norm_num [dd_map]⟩,
    ⟨6, by norm_num [dd_map]⟩]

/-- Every member of a likert item is 15 times an integer between 2
and 6. -/
theorem likert_item_mem (o : Option ℤ) (x : ℚ) (hx : x ∈ likert_item o) :
    ∃ m : ℤ, x = 15 * m ∧ 2 ≤ m ∧ m ≤ 6 := by
  rcases o with - | v
  · simp [likert_item] at hx
  · simp only [likert_item] at hx
    split_ifs at hx
    · simp at hx
      exact hx ▸ likert_cases v
    · simp at hx

/-- Every member of a drawdown item is 15 times an integer between 2
and 6. -/
theorem dd_item_mem (o : Option DrawdownReaction) (x : ℚ)
    (hx : x ∈ dd_item o) : ∃ m : ℤ, x = 15 * m ∧ 2 ≤ m ∧ m ≤ 6 := by
  rcases o with - | d
  · simp [dd_item] at hx
  · simp only [dd_item] at hx
    simp at hx
    exact hx ▸ dd_map_cases d

/-- Every member of the risk components list is 15 times an integer
between 2 and 6. -/
theorem risk_subs_mem (p : InvestorInput) :
    ∀ x ∈ risk_subs_of p, ∃ m : ℤ, x = 15 * m ∧ 2 ≤ m ∧ m ≤ 6 := by
  intro x hx
  unfold risk_subs_of at hx
  rcases List.mem_append.mp hx with h12 | h3
  · rcases List.mem_append.mp h12 with h1 | h2
    · exact likert_item_mem _ _ h1
    · exact likert_item_mem _ _ h2
  · exact dd_item_mem _ _ h3

/-- A likert item has at most one member. -/
theorem likert_item_len (o : Option ℤ) : (likert_item o).length ≤ 1 := by
  rcases o with - | v
  · simp [likert_item]
  · simp only [likert_item]
    split_ifs <;> simp

/-- A drawdown item has at most one member. -/
theorem dd_item_len (o : Option DrawdownReaction) :
    (dd_item o).length ≤ 1 := by
  rcases o with - | d <;> simp [dd_item]

/-- The risk components list has at most three members. -/
theorem risk_subs_len (p : InvestorInput) : (risk_subs_of p).length ≤ 3 := by
  unfold risk_subs_of
  have h1 := likert_item_len p.risk_attitude
  have h2 := likert_item_len p.investment_knowledge
  have h3 := dd_item_len p.drawdown_reaction
  simp only [List.length_append]
  omega

/-- Twenty times the mean of a short list of multiples of 15 is an
integer between 600 and 1800. -/
theorem mean_times_twenty (l : List ℚ)
    (hmem : ∀ x ∈ l, ∃ m : ℤ, x = 15 * m ∧ 2 ≤ m ∧ m ≤ 6)
    (hne : l ≠ []) (hlen : l.length ≤ 3) :
    ∃ k : ℤ, (l.sum / l.length) * 20 = k ∧ 600 ≤ k ∧ k ≤ 1800 := by
  rcases l with - | ⟨a, - | ⟨b, - | ⟨c, - | ⟨d, t⟩⟩⟩⟩
  · exact absurd rfl hne
  · obtain ⟨m, hm, hm2, hm6⟩ := hmem a (by simp)
    refine ⟨300 * m, ?_, by omega, by omega⟩
    rw [hm]
    simp only [List.sum_cons, List.sum_nil, List.length_cons, List.length_nil]
    push_cast
    ring
  · obtain ⟨m, hm, hm2, hm6⟩ := hmem a (by simp)
    obtain ⟨n, hn, hn2, hn6⟩ := hmem b (by simp)
    refine ⟨150 * (m + n), ?_, by omega, by omega⟩
    rw [hm, hn]
    simp only [List.sum_cons, List.sum_nil, List.length_cons, List.length_nil]
    push_cast
    ring
  · obtain ⟨m, hm, hm2, hm6⟩ := hmem a (by simp)
    obtain ⟨n, hn, hn2, hn6⟩ := hmem b (by simp)
    obtain ⟨o, ho, ho2, ho6⟩ := hmem c (by simp)
    refine ⟨100 * (m + n + o), ?_, by omega, by omega⟩
    rw [hm, hn, ho]
    simp only [List.sum_cons, List.sum_nil, List.length_cons, List.length_nil]
    push_cast
    ring
  · simp [List.length_cons] at hlen

/-- Twenty times the risk-tolerance sub-score is an integer between 600
and 1800. -/
theorem risk_sub_times_twenty (p : InvestorInput) :
    ∃ k : ℤ, risk_tolerance_sub_of p * 20 = k ∧ 600 ≤ k ∧ k ≤ 1800 := by
  unfold risk_tolerance_sub_of
  rcases p.risk_tolerance with - | rt
  · by_cases h : risk_subs_of p ≠ []
    · rw [if_pos h]
      exact mean_times_twenty _ (risk_subs_mem p) h (risk_subs_len p)
    · rw [if_neg h]
      exact ⟨1200, by norm_num⟩
  · cases rt
    exacts [⟨600, by norm_num [get_risk_tolerance_score]⟩,
      ⟨1200, by norm_num [get_risk_tolerance_score]⟩,
      ⟨1800, by norm_num [get_risk_tolerance_score]⟩]

/-- One hundred times the raw accumulated score is an integer between
2625 and 9100. -/
theorem raw_score_int (p : InvestorInput) :
    ∃ k : ℤ, raw_score_of p * 100 = k ∧ 2625 ≤ k ∧ k ≤ 9100 := by
  obtain ⟨na, ha, ha1, ha2⟩ := get_age_score_cases (pyOrInt p.age 30)
  obtain ⟨ni, hi, hi1, hi2⟩ := get_income_score_cases (monthly_income_of p)
  obtain ⟨nem, hm, hm1, hm2⟩ := get_emergency_score_cases (emergency_ratio_of p)
  obtain ⟨nd, hd, hd1, hd2⟩ := get_debt_score_cases (emi_pct_of p)
  obtain ⟨kr, hr, hr1, hr2⟩ := risk_sub_times_twenty p
  obtain ⟨nt, ht, ht1, ht2⟩ := get_time_horizon_score_cases (pyOrInt p.time_horizon 5)
  obtain ⟨nr, hq, hq1, hq2⟩ := get_return_expectation_score_cases
    (pyOrRat p.return_expectation 10.0)
  refine ⟨25 * na + (ni + nem + nd) * 10 + kr + 15 * nt + 10 * nr,
    ?_, by omega, by omega⟩
  unfold raw_score_of age_sub_of financial_sub_of income_score_of
    emergency_score_of debt_score_of time_sub_of return_sub_of
  rw [wlookup_age, wlookup_fin, wlookup_risk, wlookup_time, wlookup_ret,
    ha, hi, hm, hd, ht, hq]
  push_cast
  linear_combination hr

/-- The clamping and rounding of the final score are the identity: the
returned score equals the raw weighted sum. -/
theorem final_eq_raw (p : InvestorInput) :
    final_score_of p = raw_score_of p := by
  obtain ⟨k, hk, h1, h2⟩ := raw_score_int p
  have hb1 : (2625 : ℚ) ≤ raw_score_of p * 100 := by
    rw [hk]; exact_mod_cast h1
  have hb2 : raw_score_of p * 100 ≤ (9100 : ℚ) := by
    rw [hk]; exact_mod_cast h2
  have h0 : (0 : ℚ) ≤ raw_score_of p := by linarith
  have h100 : raw_score_of p ≤ 100 := by linarith
  unfold final_score_of
  rw [max_eq_right h0, min_eq_right h100]
  exact round2_eq_self _ k hk

/-- The six profile names. -/
theorem profile_of_score_mem (s : ℚ) :
    profile_of_score s = "Ultra-Conservative" ∨
    profile_of_score s = "Conservative" ∨
    profile_of_score s = "Moderate" ∨
    profile_of_score s = "Moderate-Aggressive" ∨
    profile_of_score s = "Aggressive" ∨
    profile_of_score s = "Ultra-Aggressive" := by
  unfold profile_of_score
  split_ifs
  · exact Or.inl rfl
  · exact Or.inr (Or.inl rfl)
  · exact Or.inr (Or.inr (Or.inl rfl))
  · exact Or.inr (Or.inr (Or.inr (Or.inl rfl)))
  · exact Or.inr (Or.inr (Or.inr (Or.inr (Or.inl rfl))))
  · exact Or.inr (Or.inr (Or.inr (Or.inr (Or.inr rfl))))

/-- Claim C5: for every profile the returned composite score lies in
[0, 100], and the profile label is one of the six names, agreeing with
the score bracket applied to the returned score. -/
theorem C5_score_range_profile (p : InvestorInput) :
    (0 ≤ (classify_investor p).score ∧ (classify_investor p).score ≤ 100) ∧
    (classify_investor p).profile
      = profile_of_score (classify_investor p).score ∧
    ((classify_investor p).profile = "Ultra-Conservative" ∨
     (classify_investor p).profile = "Conservative" ∨
     (classify_investor p).profile = "Moderate" ∨
     (classify_investor p).profile = "Moderate-Aggressive" ∨
     (classify_investor p).profile = "Aggressive" ∨
     (classify_investor p).profile = "Ultra-Aggressive") := by
  have hs : (classify_investor p).score = raw_score_of p := final_eq_raw p
  obtain ⟨k, hk, h1, h2⟩ := raw_score_int p
  have hb1 : (2625 : ℚ) ≤ raw_score_of p * 100 := by
    rw [hk]; exact_mod_cast h1
  have hb2 : raw_score_of p * 100 ≤ (9100 : ℚ) := by
    rw [hk]; exact_mod_cast h2
  refine ⟨⟨by rw [hs]; linarith, by rw [hs]; linarith⟩, rfl, ?_⟩
  exact profile_of_score_mem (final_score_of p)

/-- Claim C9: the weight table sums to exactly 1, and the returned
composite score is linear in each of the five weighted sub-scores:
if two profiles agree in four sub-scores and differ by d in the fifth,
their returned scores differ by exactly d times that factor's weight. -/
theorem C9_weights_and_linearity :
    (WEIGHTS.map Prod.snd).sum = 1 ∧
    ∀ p q : InvestorInput, ∀ d : ℚ,
      ((age_sub_of p = age_sub_of q + d ∧
        financial_sub_of p = financial_sub_of q ∧
        risk_tolerance_sub_of p = risk_tolerance_sub_of q ∧
        time_sub_of p = time_sub_of q ∧
        return_sub_of p = return_sub_of q) →
        (classify_investor p).score - (classify_investor q).score
          = d * wlookup "age") ∧
      ((age_sub_of p = age_sub_of q ∧
        financial_sub_of p = financial_sub_of q + d ∧
        risk_tolerance_sub_of p = risk_tolerance_sub_of q ∧
        time_sub_of p = time_sub_of q ∧
        return_sub_of p = return_sub_of q) →
        (classify_investor p).score - (classify_investor q).score
          = d * wlookup "financial_stability") ∧
      ((age_sub_of p = age_sub_of q ∧
        financial_sub_of p = financial_sub_of q ∧
        risk_tolerance_sub_of p = risk_tolerance_sub_of q + d ∧
        time_sub_of p = time_sub_of q ∧
        return_sub_of p = return_sub_of q) →
        (classify_investor p).score - (classify_investor q).score
          = d * wlookup "risk_tolerance") ∧
      ((age_sub_of p = age_sub_of q ∧
        financial_sub_of p = financial_sub_of q ∧
        risk_tolerance_sub_of p = risk_tolerance_sub_of q ∧
        time_sub_of p = time_sub_of q + d ∧
        return_sub_of p = return_sub_of q) →
        (classify_investor p).score - (classify_investor q).score
          = d * wlookup "time_horizon") ∧
      ((age_sub_of p = age_sub_of q ∧
        financial_sub_of p = financial_sub_of q ∧
        risk_tolerance_sub_of p = risk_tolerance_sub_of q ∧
        time_sub_of p = time_sub_of q ∧
        return_sub_of p = return_sub_of q + d) →
        (classify_investor p).score - (classify_investor q).score
          = d * wlookup "return_expectation") := by
  refine ⟨by norm_num [WEIGHTS], fun p q d => ?_⟩
  have hp : (classify_investor p).score = raw_score_of p := final_eq_raw p
  have hq : (classify_investor q).score = raw_score_of q := final_eq_raw q
  refine ⟨fun ⟨e1, e2, e3, e4, e5⟩ => ?_, fun ⟨e1, e2, e3, e4, e5⟩ => ?_,
    fun ⟨e1, e2, e3, e4, e5⟩ => ?_, fun ⟨e1, e2, e3, e4, e5⟩ => ?_,
    fun ⟨e1, e2, e3, e4, e5⟩ => ?_⟩ <;>
  · rw [hp, hq]
    unfold raw_score_of
    rw [e1, e2, e3, e4, e5]
    ring

/-- Witness for C9_weights_and_linearity: the default record against its
younger variant (age sub-score 75 against 90). -/
theorem C9_weights_and_linearity_witness :
    (classify_investor default_input).score - (classify_investor inC9).score
      = (-15) * wlookup "age" :=
  ((C9_weights_and_linearity.2 default_input inC9 (-15)).1
    ⟨by with_unfolding_all decide, by with_unfolding_all decide,
     by with_unfolding_all decide, by with_unfolding_all decide,
     by with_unfolding_all decide⟩)

/-- Claim C8: a Likert value of 0 for risk_attitude or
investment_knowledge is skipped exactly as if the field were absent: the
whole classification result is unchanged. -/
theorem C8_zero_likert_skipped (p : InvestorInput) :
    classify_investor { p with risk_attitude := some 0 }
      = classify_investor { p with risk_attitude := none } ∧
    classify_investor { p with investment_knowledge := some 0 }
      = classify_investor { p with investment_knowledge := none } := by
  cases p
  exact ⟨rfl, rfl⟩

/-- Claim C6: the emergency-fund ratio computed by the engine is exactly
the cascade the specification describes: amount over six times expenses
when the amount is present and the expenses are present and positive;
otherwise months over six when the months are present; otherwise 0. -/
theorem C6_emergency_ratio (p : InvestorInput) :
    emergency_ratio_of p = emergency_ratio_spec p := by
  unfold emergency_ratio_of emergency_ratio_spec monthly_expenses_of
  rcases p.emergency_fund_amount with - | a <;>
    rcases p.monthly_expenses with - | e <;>
      rcases p.emergency_fund_months with - | m <;>
        simp only [pyOrInt]
  all_goals
    first
      | rfl
      | (norm_num; done)
      | (by_cases he : e = 0 <;> norm_num [he])

/-- Claim C7: with no explicit risk_tolerance label, the risk-tolerance
sub-score defaults to exactly 60 when no truthy component is supplied,
and otherwise is the arithmetic mean of the supplied components' mapped
scores. -/
theorem C7_risk_fallback (p : InvestorInput) (h : p.risk_tolerance = none) :
    ((p.risk_attitude = none ∨ p.risk_attitude = some 0) →
     (p.investment_knowledge = none ∨ p.investment_knowledge = some 0) →
     p.drawdown_reaction = none →
     risk_tolerance_sub_of p = 60) ∧
    (risk_subs_of p ≠ [] →
     risk_tolerance_sub_of p
       = (risk_subs_of p).sum / ((risk_subs_of p).length : ℚ)) := by
  constructor
  · intro h1 h2 h3
    have hempty : risk_subs_of p = [] := by
      unfold risk_subs_of likert_item dd_item
      rcases h1 with h1 | h1 <;> rcases h2 with h2 | h2 <;>
        simp [h1, h2, h3]
    unfold risk_tolerance_sub_of
    rw [h]
    norm_num [hempty]
  · intro hne
    unfold risk_tolerance_sub_of
    rw [h]
    simp [hne]

/-- Witness for C7_risk_fallback: the empty default record falls back to
60, and a record supplying attitude 2 and reaction sell gets the mean of
its two supplied component scores. -/
theorem C7_risk_fallback_witness :
    risk_tolerance_sub_of default_input = 60 ∧
    risk_tolerance_sub_of inC7
      = (risk_subs_of inC7).sum / ((risk_subs_of inC7).length : ℚ) :=
  ⟨(C7_risk_fallback default_input rfl).1 (Or.inl rfl) (Or.inl rfl) rfl,
   (C7_risk_fallback inC7 rfl).2 (by with_unfolding_all decide)⟩

/-- Membership in an optionally extended factor list comes from the
original list or is the appended advisory entry. -/
theorem append_optional_factor_mem (l : List Factor) (nm : String)
    (o : Option ℚ) (f : Factor) (hf : f ∈ append_optional_factor l nm o) :
    f ∈ l ∨ (f.name = nm ∧ f.weight = none ∧ f.weighted = none) := by
  rcases o with - | v
  · simp only [append_optional_factor] at hf
    exact Or.inl hf
  · simp only [append_optional_factor] at hf
    by_cases hv : v ≠ 0
    · rw [if_pos hv] at hf
      rcases List.mem_append.mp hf with hl | hr
      · exact Or.inl hl
      · simp at hr
        subst hr
        exact Or.inr ⟨rfl, rfl, rfl⟩
    · rw [if_neg hv] at hf
      exact Or.inl hf

/-- Optionally extending a factor list preserves membership. -/
theorem append_optional_factor_of_mem (l : List Factor) (nm : String)
    (o : Option ℚ) (f : Factor) (hf : f ∈ l) :
    f ∈ append_optional_factor l nm o := by
  rcases o with - | v
  · simpa only [append_optional_factor] using hf
  · simp only [append_optional_factor]
    by_cases hv : v ≠ 0
    · rw [if_pos hv]
      exact List.mem_append_left _ hf
    · rw [if_neg hv]
      exact hf

/-- A truthy optional sub-score is appended as an advisory factor. -/
theorem append_optional_factor_self (l : List Factor) (nm : String)
    (v : ℚ) (hv : v ≠ 0) :
    (⟨nm, v, none, none⟩ : Factor) ∈ append_optional_factor l nm (some v) := by
  simp only [append_optional_factor]
  rw [if_pos hv]
  exact List.mem_append_right _ (by simp)

/-- Claim C4: insurance_amount, the insurance record and dependants have
no effect on the composite score, the profile label or the
recommendation; insurance and dependants entries appear in the factor
list only with null weight and null weighted contribution. -/
theorem C4_advisory_fields_no_effect (p : InvestorInput) (a : Option ℤ)
    (i : Option Insurance) (d : Option ℤ) :
    ((classify_investor { p with insurance_amount := a }).score
       = (classify_investor { p with insurance_amount := none }).score ∧
     (classify_investor { p with insurance_amount := a }).profile
       = (classify_investor { p with insurance_amount := none }).profile ∧
     (classify_investor { p with insurance_amount := a }).recommendation
       = (classify_investor { p with insurance_amount := none }).recommendation) ∧
    ((classify_investor { p with insurance := i }).score
       = (classify_investor { p with insurance := none }).score ∧
     (classify_investor { p with insurance := i }).profile
       = (classify_investor { p with insurance := none }).profile ∧
     (classify_investor { p with insurance := i }).recommendation
       = (classify_investor { p with insurance := none }).recommendation) ∧
    ((classify_investor { p with dependants := d }).score
       = (classify_investor { p with dependants := none }).score ∧
     (classify_investor { p with dependants := d }).profile
       = (classify_investor { p with dependants := none }).profile ∧
     (classify_investor { p with dependants := d }).recommendation
       = (classify_investor { p with dependants := none }).recommendation) ∧
    (∀ f ∈ (classify_investor p).factors,
      (f.name = "insurance" ∨ f.name = "dependants") →
      f.weight = none ∧ f.weighted = none) := by
  obtain ⟨g1, g2, g3, g4, g5, g6, g7, g8, g9, g10, g11, g12, g13, g14, g15⟩ := p
  refine ⟨⟨rfl, rfl, rfl⟩, ⟨rfl, rfl, rfl⟩, ⟨rfl, rfl, rfl⟩, ?_⟩
  intro f hf hname
  have hf2 : f ∈ factors_of
      ⟨g1, g2, g3, g4, g5, g6, g7, g8, g9, g10, g11, g12, g13, g14, g15⟩ := hf
  unfold factors_of at hf2
  rcases append_optional_factor_mem _ _ _ _ hf2 with hf3 | hadv
  · rcases append_optional_factor_mem _ _ _ _ hf3 with hf4 | hadv
    · unfold base_factors_of at hf4
      simp only [List.mem_cons, List.not_mem_nil, or_false] at hf4
      rcases hf4 with rfl | rfl | rfl | rfl | rfl <;> simp at hname
    · exact hadv.2
  · exact hadv.2

/-- Witness for C4_advisory_fields_no_effect: setting insurance_amount
100000 on the default record leaves the score unchanged, and the
insurance entry it appends carries null weight and weighted fields. -/
theorem C4_advisory_fields_no_effect_witness :
    (classify_investor { default_input with insurance_amount := some 100000 }).score
      = (classify_investor { default_input with insurance_amount := none }).score ∧
    ((⟨"insurance", (40 : ℚ), none, none⟩ : Factor).weight = none ∧
     (⟨"insurance", (40 : ℚ), none, none⟩ : Factor).weighted = none) :=
  ⟨(C4_advisory_fields_no_effect default_input (some 100000) none none).1.1,
   (C4_advisory_fields_no_effect inC4 none none none).2.2.2
     ⟨"insurance", (40 : ℚ), none, none⟩ (by with_unfolding_all decide)
     (by with_unfolding_all decide)⟩

/-- Claim C10: when insurance_amount is absent but an insurance record is
present, an insurance factor is appended whose sub-score is 80 with both
flags set, 50 with exactly one flag set, and 30 with neither, always with
null weight fields. -/
theorem C10_insurance_flags (p : InvestorInput) (ins : Insurance)
    (h1 : p.insurance_amount = none) (h2 : p.insurance = some ins) :
    (ins.has_health.getD false = true → ins.has_life.getD false = true →
      (⟨"insurance", 80, none, none⟩ : Factor) ∈ (classify_investor p).factors) ∧
    (ins.has_health.getD false ≠ ins.has_life.getD false →
      (⟨"insurance", 50, none, none⟩ : Factor) ∈ (classify_investor p).factors) ∧
    (ins.has_health.getD false = false → ins.has_life.getD false = false →
      (⟨"insurance", 30, none, none⟩ : Factor) ∈ (classify_investor p).factors) := by
  have base : ∀ v : ℚ, insurance_sub_of p = some v → v ≠ 0 →
      (⟨"insurance", v, none, none⟩ : Factor) ∈ (classify_investor p).factors := by
    intro v hv hv0
    show _ ∈ factors_of p
    unfold factors_of
    apply append_optional_factor_of_mem
    rw [hv]
    exact append_optional_factor_self _ _ _ hv0
  refine ⟨fun hh hl => ?_, fun hne => ?_, fun hh hl => ?_⟩
  · refine base 80 ?_ (by norm_num)
    unfold insurance_sub_of
    rw [h1, h2]
    norm_num [get_insurance_score, hh, hl]
  · refine base 50 ?_ (by norm_num)
    unfold insurance_sub_of
    rw [h1, h2]
    cases hha : ins.has_health.getD false <;>
      cases hhl : ins.has_life.getD false
    · rw [hha, hhl] at hne
      exact absurd rfl hne
    · norm_num [get_insurance_score, hha, hhl]
    · norm_num [get_insurance_score, hha, hhl]
    · rw [hha, hhl] at hne
      exact absurd rfl hne
  · refine base 30 ?_ (by norm_num)
    unfold insurance_sub_of
    rw [h1, h2]
    norm_num [get_insurance_score, hh, hl]

/-- Witness for C10_insurance_flags: a default record with health cover
only gets an advisory insurance factor scored 50. -/
theorem C10_insurance_flags_witness :
    (⟨"insurance", (50 : ℚ), none, none⟩ : Factor)
      ∈ (classify_investor inC10).factors :=
  (C10_insurance_flags inC10 ⟨some true, some false⟩ rfl rfl).2.1
    (by with_unfolding_all decide)

end Capm
